import Mathlib

/-!
Verification development for the deployment-tools repository
(src/deployment-tools/analyze-changes-ai.py and src/deployment-tools/gitDeploy.py).

The Python sources are shallowly embedded: each Lean definition mirrors a
Python function of the source (or a stdlib function the source calls), with
strings modelled as Lean `String`, lists as `List`, and the side-effecting
process structure made explicit (exit codes as `Nat` results, invoked git
commands as lists of argument vectors, fallible staging as `Except`).
-/

namespace DeployTools

/-! ### Python string primitives used by the sources -/

/-- Characters removed by Python `str.strip()` with no argument. -/
def isPySpace (c : Char) : Bool :=
  c = ' ' || c = '\t' || c = '\n' || c = '\r' || c = '\x0b' || c = '\x0c'

/-- Python `str.strip()`: remove whitespace from both ends. -/
def pyStrip (s : String) : String :=
  String.mk (((s.data.dropWhile isPySpace).reverse.dropWhile isPySpace).reverse)

/-- The uppercase-to-lowercase table of ASCII letters. -/
def asciiPairs : List (Char × Char) :=
  [('A', 'a'), ('B', 'b'), ('C', 'c'), ('D', 'd'), ('E', 'e'), ('F', 'f'),
   ('G', 'g'), ('H', 'h'), ('I', 'i'), ('J', 'j'), ('K', 'k'), ('L', 'l'),
   ('M', 'm'), ('N', 'n'), ('O', 'o'), ('P', 'p'), ('Q', 'q'), ('R', 'r'),
   ('S', 's'), ('T', 't'), ('U', 'u'), ('V', 'v'), ('W', 'w'), ('X', 'x'),
   ('Y', 'y'), ('Z', 'z')]

/-- Python `str.lower()` restricted to ASCII letters (all strings handled by
the sources are ASCII): an uppercase letter is replaced by its lowercase
counterpart, every other character is unchanged. -/
def lowerChar (c : Char) : Char :=
  ((asciiPairs.find? fun pr => pr.1 == c).map Prod.snd).getD c

/-- Python `str.lower()` on a whole string. -/
def pyLower (s : String) : String := String.mk (s.data.map lowerChar)

/-- Python `os.path.basename`: the part of the path after the last slash. -/
def basename (p : String) : String :=
  String.mk ((p.data.reverse.takeWhile (fun c => c != '/')).reverse)

/-- Boolean list-prefix test (used to model Python substring search). -/
def isPrefixB : List Char → List Char → Bool
  | [], _ => true
  | _ :: _, [] => false
  | a :: as, b :: bs => (a == b) && isPrefixB as bs

/-- Contiguous-substring test on character lists. -/
def substrB (needle : List Char) : List Char → Bool
  | [] => isPrefixB needle []
  | c :: t => isPrefixB needle (c :: t) || substrB needle t

/-- Python `needle in hay` on strings (contiguous substring). -/
def pyContains (hay needle : String) : Bool := substrB needle.data hay.data

/-- Boolean list-suffix test (Python `str.endswith`). -/
def isSuffixB (needle hay : List Char) : Bool :=
  isPrefixB needle.reverse hay.reverse

/-- Python `str.startswith` on strings. -/
def pyStartsWith (s pre : String) : Bool := isPrefixB pre.data s.data

/-- Python `str.endswith` on strings. -/
def pyEndsWith (s suf : String) : Bool := isSuffixB suf.data s.data

/-- Python `s.split(sep)` for a one-character separator (the sources only
split on a newline or a slash; the two-star split has its own function). -/
def pySplitChar (sep : Char) : List Char → List (List Char)
  | [] => [[]]
  | c :: t =>
    if c = sep then [] :: pySplitChar sep t
    else
      match pySplitChar sep t with
      | [] => [[c]]
      | h :: r => (c :: h) :: r

/-- Python `s.split(sep)` on strings, one-character separator. -/
def pySplit (s : String) (sep : Char) : List String :=
  (pySplitChar sep s.data).map String.mk

/-- Python `sep.join(parts)`. -/
def joinWith (sep : String) : List String → String
  | [] => ""
  | [x] => x
  | x :: xs => x ++ sep ++ joinWith sep xs

/-- Python `s[:n]`. -/
def pyTake (n : Nat) (s : String) : String := String.mk (s.data.take n)

/-! ### Python `fnmatch.fnmatch`

The sources match paths against glob patterns with `fnmatch.fnmatch` (on a
POSIX system `normcase` is the identity, so this is a case-sensitive full
match of the whole string; the callers lowercase both sides themselves when
they want case-insensitivity).  Special pattern characters: `*` matches any
character sequence, `?` any single character, and a bracket expression
matches one character against a set/range (leading `!` negates; a `]` right
after the opening bracket, or after `!`, is part of the set; an unclosed
bracket is a literal `[`). -/

/-- Scan a character list up to the first `]`, returning the content before
it and the remainder after it (with a proof the remainder got shorter, used
for termination of the matcher). -/
def breakOnRB : (l : List Char) → Option (List Char × { rest : List Char // rest.length < l.length })
  | [] => none
  | c :: t =>
    if c = ']' then some ([], ⟨t, by simp⟩)
    else
      match breakOnRB t with
      | some (a, ⟨b, hb⟩) => some (c :: a, ⟨b, by simpa using Nat.lt_succ_of_lt hb⟩)
      | none => none

/-- Parse a bracket expression: the input is the pattern remainder just after
the opening `[`.  Returns the negation flag, the set content, and the pattern
remainder after the closing `]`; `none` when the bracket is unclosed. -/
def splitClass : (l : List Char) → Option (Bool × List Char × { rest : List Char // rest.length < l.length })
  | [] => none
  | '!' :: ']' :: t2 =>
    match breakOnRB t2 with
    | some (a, ⟨b, hb⟩) => some (true, ']' :: a, ⟨b, by simp; omega⟩)
    | none => none
  | '!' :: c :: t =>
    match breakOnRB (c :: t) with
    | some (a, ⟨b, hb⟩) => some (true, a, ⟨b, by simp at hb ⊢; omega⟩)
    | none => none
  | ']' :: t2 =>
    match breakOnRB t2 with
    | some (a, ⟨b, hb⟩) => some (false, ']' :: a, ⟨b, by simp; omega⟩)
    | none => none
  | c :: t =>
    match breakOnRB (c :: t) with
    | some (a, ⟨b, hb⟩) => some (false, a, ⟨b, by simpa using hb⟩)
    | none => none

/-- Membership of a character in a bracket-expression content (single
characters and `a-b` ranges; a trailing `-` is a literal). -/
def classHas (c : Char) : List Char → Bool
  | [] => false
  | [a] => c == a
  | [a, b] => (c == a) || (c == b)
  | a :: '-' :: b :: rest => (decide (a ≤ c) && decide (c ≤ b)) || classHas c rest
  | a :: rest => (c == a) || classHas c rest

/-- Core of `fnmatch.fnmatch`: does the pattern (second argument) match the
whole string (third argument)?  Structural recursion on a fuel counter so
that the function reduces inside the kernel; every recursive call strictly
decreases `pattern.length + string.length`, so the fuel supplied by
`fnmatchAux` (that sum plus one) is never exhausted and the fuel-out branch
is unreachable. -/
def fnmatchFuel : Nat → List Char → List Char → Bool
  | 0, _, _ => false
  | _ + 1, [], [] => true
  | _ + 1, [], _ :: _ => false
  | n + 1, '*' :: ps, [] => fnmatchFuel n ps []
  | n + 1, '*' :: ps, c :: cs =>
    fnmatchFuel n ps (c :: cs) || fnmatchFuel n ('*' :: ps) cs
  | _ + 1, _ :: _, [] => false
  | n + 1, '?' :: ps, _ :: cs => fnmatchFuel n ps cs
  | n + 1, '[' :: ps, c :: cs =>
    match splitClass ps with
    | some (neg, content, rest) => (classHas c content != neg) && fnmatchFuel n rest.1 cs
    | none => (c == '[') && fnmatchFuel n ps cs
  | n + 1, p :: ps, c :: cs => (p == c) && fnmatchFuel n ps cs

/-- Entry point of the matcher, supplying sufficient fuel. -/
def fnmatchAux (ps s : List Char) : Bool :=
  fnmatchFuel (ps.length + s.length + 1) ps s

/-- Python `fnmatch.fnmatch(name, pattern)` on a POSIX system. -/
def fnmatch (name pattern : String) : Bool := fnmatchAux pattern.data name.data

/-! ### Python `posixpath.normpath` and `os.path.abspath` -/

/-- Python `posixpath.normpath`: collapse separators, drop single dots and
resolve double dots lexically. -/
def normpath (path : String) : String :=
  if path == "" then "."
  else
    let initialSlashes : Nat :=
      if pyStartsWith path "/" then
        if pyStartsWith path "//" && !(pyStartsWith path "///") then 2 else 1
      else 0
    let comps := pySplit path '/'
    let newComps := comps.foldl (fun acc comp =>
      if comp == "" || comp == "." then acc
      else if comp != ".." || (initialSlashes == 0 && acc.isEmpty)
            || (!acc.isEmpty && acc.getLastD "" == "..") then acc ++ [comp]
      else if !acc.isEmpty then acc.dropLast
      else acc) []
    let res := String.mk (List.replicate initialSlashes '/') ++ joinWith "/" newComps
    if res == "" then "." else res

/-- Python `os.path.abspath` on POSIX, with the process working directory
passed explicitly (the analyzer runs it against the current directory). -/
def abspath (cwd path : String) : String :=
  if pyStartsWith path "/" then normpath path
  else if cwd == "" || pyEndsWith cwd "/" then normpath (cwd ++ path)
  else normpath (cwd ++ "/" ++ path)

/-- Python `pattern.split("**")` specialised to the two-star separator used
by `GitignoreParser.should_ignore`. -/
def splitStarStar : List Char → List (List Char)
  | [] => [[]]
  | '*' :: '*' :: t => [] :: splitStarStar t
  | c :: t =>
    match splitStarStar t with
    | [] => [[c]]
    | h :: r => (c :: h) :: r

/-! ### analyze-changes-ai.py: GitignoreParser -/

/-- The fixed sensitive glob patterns of `GitignoreParser.__init__`
(analyze-changes-ai.py lines 21-45). -/
def sensitive_patterns : List String :=
  ["*_api_key*", "*_apikey*", "*_secret*", "*_token*", "*_password*",
   "*.pem", "*.key", "*.p12", "*.pfx", "*.jks",
   ".env*", "*.env", "env.*",
   "*credentials*.json", "*secrets*.json",
   "GoogleService-Info.plist", "google-services.json",
   "*.db", "*.sqlite", "*.sqlite3",
   "id_rsa*", "id_dsa*", "*.ppk", "id_*.pub",
   ".aws/*", "credentials", "*.tfvars",
   "*.log", "*.dump", "npm-debug.log*", "yarn-debug.log*",
   ".DS_Store", "Thumbs.db"]

/-- The fixed sensitive substring keywords of `GitignoreParser.is_sensitive`
(analyze-changes-ai.py lines 117-118). -/
def sensitive_keywords : List String :=
  ["_secret", "_password", "_token", "_key", "credential",
   "private_", "api_key", "apikey"]

/-- `GitignoreParser.should_ignore` (analyze-changes-ai.py lines 90-103):
the absolute form of the path matches a loaded ignore pattern, or, for a
recursive-wildcard pattern splitting as `p ++ "**" ++ s`, the absolute path
starts with `p` and ends with `s`.  The loaded `ignore_patterns` and the
working directory are passed explicitly. -/
def should_ignore (ignore_patterns : List String) (cwd : String) (file_path : String) : Bool :=
  let abs_path := abspath cwd file_path
  ignore_patterns.any fun pattern =>
    fnmatch abs_path pattern
    || (pyContains pattern "**" &&
         (let parts := splitStarStar pattern.data
          decide (parts.length = 2)
          && isPrefixB (parts.headD []) abs_path.data
          && isSuffixB (parts.getLastD []) abs_path.data))

/-- `GitignoreParser.is_sensitive` (analyze-changes-ai.py lines 105-124):
the lowercased basename or the lowercased full path matches a sensitive glob
(patterns lowercased too), or the lowercased basename contains a sensitive
keyword. -/
def is_sensitive (file_path : String) : Bool :=
  let file_name := pyLower (basename file_path)
  let file_path_lower := pyLower file_path
  if sensitive_patterns.any (fun pattern =>
        fnmatch file_name (pyLower pattern) || fnmatch file_path_lower (pyLower pattern))
  then true
  else sensitive_keywords.any fun keyword => pyContains file_name keyword

/-- Restatement of the spec sentence for `is_sensitive` (spec section 4.2),
used to check the source definition against the spec wording: lowercased
basename matches a fixed glob, OR lowercased full path matches a fixed glob,
OR the lowercased basename contains a fixed keyword. -/
def is_sensitive_spec (p : String) : Bool :=
  (sensitive_patterns.any fun pat => fnmatch (pyLower (basename p)) (pyLower pat))
  || (sensitive_patterns.any fun pat => fnmatch (pyLower p) (pyLower pat))
  || (sensitive_keywords.any fun kw => pyContains (pyLower (basename p)) kw)

/-! ### analyze-changes-ai.py: change enumeration and classification -/

/-- The post-processing `stdout.strip().split(backslash-n)` applied to each of the
three git queries in `get_git_changes` (analyze-changes-ai.py lines 126-144). -/
def queryLines (out : String) : List String := pySplit (pyStrip out) '\n'

/-- `get_git_changes` (analyze-changes-ai.py lines 126-147) as a function of
the raw stdout of the three git queries: combine the three line lists,
de-duplicate (`set`, modelled by `dedup`, which keeps one occurrence of each
element), and drop empty strings (`filter(None, ...)`). -/
def get_git_changes (modifiedOut stagedOut untrackedOut : String) : List String :=
  let modified := queryLines modifiedOut
  let staged := queryLines stagedOut
  let untracked := queryLines untrackedOut
  ((modified ++ staged ++ untracked).dedup).filter fun f => !(f == "")

/-- `check_sensitive_files` (analyze-changes-ai.py lines 149-160): walk the
file list; an ignored file goes to the second (ignored) list, otherwise a
sensitive file goes to the first (sensitive) list, otherwise to neither. -/
def check_sensitive_files (ip : List String) (cwd : String) : List String → List String × List String
  | [] => ([], [])
  | f :: fs =>
    let rest := check_sensitive_files ip cwd fs
    if should_ignore ip cwd f then (rest.1, f :: rest.2)
    else if is_sensitive f then (f :: rest.1, rest.2)
    else rest

/-- The classification of the spec (section 4.4): `check_sensitive_files`
packaged with the exclusion filters of `main` (analyze-changes-ai.py lines
336-345), yielding (sensitive, ignored, eligible). -/
def classify (ip : List String) (cwd : String) (files : List String) :
    List String × List String × List String :=
  let sens := (check_sensitive_files ip cwd files).1
  let ign := (check_sensitive_files ip cwd files).2
  (sens, ign, (files.filter fun f => !(sens.contains f)).filter fun f => !(ign.contains f))

/-- Exit status of `main` of analyze-changes-ai.py as a function of its
inputs: the enumerated change list, the loaded ignore patterns and working
directory, whether stdin is a terminal, and the interactive response.
Mirrors the control flow of lines 291-462: exit 1 when there are no changes,
exclusion of sensitive files (interactive yes-answer or non-interactive) and
of ignored files, exit 1 when nothing remains, and the final exit 1 whenever
sensitive files were found. -/
def analyzeMainExit (ip : List String) (cwd : String) (files : List String)
    (interactive : Bool) (response : String) : Nat :=
  if files.isEmpty then 1
  else
    let sens := (check_sensitive_files ip cwd files).1
    let ign := (check_sensitive_files ip cwd files).2
    let files1 :=
      if !sens.isEmpty then
        if interactive then
          if pyLower response == "y" then files.filter (fun f => !(sens.contains f)) else files
        else files.filter fun f => !(sens.contains f)
      else files
    let files2 := if !ign.isEmpty then files1.filter (fun f => !(ign.contains f)) else files1
    if files2.isEmpty then 1
    else if !sens.isEmpty then 1 else 0

/-! ### gitDeploy.py: status parsing -/

/-- The four change lists built by `check_git_status`
(gitDeploy.py lines 73-78). -/
structure GitChanges where
  added : List String
  modified : List String
  deleted : List String
  untracked : List String
deriving DecidableEq

/-- The empty change set `check_git_status` starts from. -/
def emptyChanges : GitChanges := ⟨[], [], [], []⟩

/-- The category a porcelain status line is filed under. -/
inductive StatusCat
  | added | modified | deleted | untracked
deriving DecidableEq

/-- Classification of one `git status --porcelain` line
(gitDeploy.py lines 80-99): the first character is the staging-area code,
the second the working-tree code, the path starts at index 3.  `??` is
untracked; otherwise an `M` in either position is modified, else an `A` is
added, else a `D` is deleted but only when the deletion is not already
staged.  Anything else (and the empty line, which the loop skips) yields
nothing.  (A one-character line would raise an IndexError in the source; it
is mapped to `none` here and not relied on by any theorem.) -/
def classifyStatusLine (line : String) : Option (StatusCat × String) :=
  match line.data with
  | staged :: working :: rest =>
    let path := String.mk (rest.drop 1)
    if staged = '?' ∧ working = '?' then some (StatusCat.untracked, path)
    else if staged = 'M' ∨ working = 'M' then some (StatusCat.modified, path)
    else if staged = 'A' ∨ working = 'A' then some (StatusCat.added, path)
    else if staged = 'D' ∨ working = 'D' then
      if staged ≠ 'D' then some (StatusCat.deleted, path) else none
    else none
  | _ => none

/-- Append the contribution of one status line to the change set. -/
def applyStatusLine (ch : GitChanges) (line : String) : GitChanges :=
  match classifyStatusLine line with
  | some (StatusCat.untracked, p) => { ch with untracked := ch.untracked ++ [p] }
  | some (StatusCat.modified, p) => { ch with modified := ch.modified ++ [p] }
  | some (StatusCat.added, p) => { ch with added := ch.added ++ [p] }
  | some (StatusCat.deleted, p) => { ch with deleted := ch.deleted ++ [p] }
  | none => ch

/-- The loop of `check_git_status` over the porcelain lines. -/
def parseStatusLines (lines : List String) : GitChanges :=
  lines.foldl applyStatusLine emptyChanges

/-- `check_git_status` change collection as a function of the (already
stripped, per `_run_command`) porcelain output. -/
def check_git_status_changes (statusOut : String) : GitChanges :=
  parseStatusLines (pySplit (pyStrip statusOut) '\n')

/-! ### gitDeploy.py: deployment log parsing and the commit message -/

/-- The fields extracted by `parse_deployment_file`
(gitDeploy.py lines 149-157). -/
structure DeploymentInfo where
  deployment_number : String := ""
  deployment_date : String := ""
  deployed_by : String := ""
  title : String := ""
  description : String := ""
deriving DecidableEq

/-- The text after the first colon of a line (Python `line.split(':', 1)[1]`;
only applied on lines that do contain a colon). -/
def afterFirstColon : List Char → List Char
  | [] => []
  | ':' :: t => t
  | _ :: t => afterFirstColon t

/-- One iteration of the line loop of `parse_deployment_file`
(gitDeploy.py lines 161-180): a recognized `Label:` prefix overwrites that
field with the trimmed text after the first colon. -/
def parseDeploymentLine (info : DeploymentInfo) (line : String) : DeploymentInfo :=
  if pyStartsWith line "Deployment Number:" then
    { info with deployment_number := pyStrip (String.mk (afterFirstColon line.data)) }
  else if pyStartsWith line "Deployment Date:" then
    { info with deployment_date := pyStrip (String.mk (afterFirstColon line.data)) }
  else if pyStartsWith line "Deployed By:" then
    { info with deployed_by := pyStrip (String.mk (afterFirstColon line.data)) }
  else if pyStartsWith line "Title:" then
    { info with title := pyStrip (String.mk (afterFirstColon line.data)) }
  else if pyStartsWith line "Description:" then
    { info with description := pyStrip (String.mk (afterFirstColon line.data)) }
  else info

/-- `parse_deployment_file` (gitDeploy.py lines 141-190) on the file content. -/
def parse_deployment_file (content : String) : DeploymentInfo :=
  (pySplit content '\n').foldl parseDeploymentLine {}

/-- The summary (first) line chosen by `create_deployment_commit`
(gitDeploy.py lines 304-310) in the deployment-log workflow: when the parsed
title is non-empty the message is built from the untruncated title; otherwise
the `claude_analysis` fallback applies, whose `deployment_comment` was set to
the title truncated to 72 characters by `analyze_with_deployment_log`
(line 207). -/
def gitDeployCommitSummary (di : DeploymentInfo) : String :=
  let deployment_comment := pyTake 72 di.title
  if di.title ≠ "" then
    "Deployment " ++ di.deployment_number ++ ": " ++ di.title
  else deployment_comment

/-- The full commit message assembled by `create_deployment_commit`
(gitDeploy.py lines 312-320) in the deployment-log workflow: summary line,
blank line, metadata lines, deployment id and description. -/
def gitDeployFullMessage (di : DeploymentInfo) (branch nowIso : String) : String :=
  gitDeployCommitSummary di ++ "\n\n"
    ++ "Branch: " ++ branch ++ "\n"
    ++ "Automated by: gitDeploy.py\n"
    ++ "Timestamp: " ++ nowIso ++ "\n"
    ++ "Deployment Log: " ++ di.deployment_number ++ "\n"
    ++ "\nSummary: " ++ di.description ++ "\n"

/-- The commit message produced from a deployment-log file content, a branch
name and a timestamp (`parse_deployment_file` followed by
`create_deployment_commit`). -/
def gitDeployCommitMessage (content branch nowIso : String) : String :=
  gitDeployFullMessage (parse_deployment_file content) branch nowIso

/-- First line of a string (everything before the first newline). -/
def firstLine (s : String) : String :=
  String.mk (s.data.takeWhile fun c => c != '\n')

/-! ### gitDeploy.py: staging, push, run -/

/-- The repository state `stage_changes` consults: which paths currently
exist on disk and which paths are tracked in the index. -/
structure RepoFs where
  onDisk : String → Bool
  tracked : String → Bool

/-- `git add <p>`: fails (and `_run_command` with `check=True` would abort
the process) when the path does not exist. -/
def gitAdd (fs : RepoFs) (p : String) : Except String Unit :=
  if fs.onDisk p then Except.ok ()
  else Except.error ("pathspec did not match any files: " ++ p)

/-- `git rm --cached <p>`: fails when the path is not tracked in the index. -/
def gitRmCached (fs : RepoFs) (p : String) : Except String Unit :=
  if fs.tracked p then Except.ok ()
  else Except.error ("pathspec did not match any files: " ++ p)

/-- `git ls-files --error-unmatch <p>` through `_run_command` with
`check=False`.  Since `subprocess.run` raises `CalledProcessError` only when
`check=True`, the except-branch of `_run_command` (gitDeploy.py lines 51-56)
that would return `None` is unreachable here: the stripped stdout is always
returned - the path itself when tracked, the empty string when not (the
error message goes to stderr).  The result is therefore never `None`. -/
def lsFilesCheck (fs : RepoFs) (p : String) : Option String :=
  some (if fs.tracked p then p else "")

/-- The first loop of `stage_changes` (gitDeploy.py lines 277-285) over
modified, added and untracked paths: a path is staged only after an
existence check; missing paths are reported and skipped.  Returns the staged
paths, or the error a failing `git add` would abort with. -/
def stageAdds (fs : RepoFs) : List String → Except String (List String)
  | [] => Except.ok []
  | p :: ps =>
    if fs.onDisk p then
      match gitAdd fs p with
      | Except.ok _ => (stageAdds fs ps).map fun r => p :: r
      | Except.error e => Except.error e
    else stageAdds fs ps

/-- The second loop of `stage_changes` (gitDeploy.py lines 287-296) over
deleted paths.  The source intends to stage the removal only when the path
is still tracked, but its `is not None` guard (line 294) always passes
because `lsFilesCheck` never returns `None`; so `git rm --cached` (run with
`check=True`, which aborts the process on failure) is attempted for every
deleted path, and an already-untracked deleted path makes staging fail.  The
`none` branch below mirrors the source's dead else-path and is unreachable. -/
def stageDeleted (fs : RepoFs) : List String → Except String (List String)
  | [] => Except.ok []
  | p :: ps =>
    match lsFilesCheck fs p with
    | some _ =>
      match gitRmCached fs p with
      | Except.ok _ => (stageDeleted fs ps).map fun r => p :: r
      | Except.error e => Except.error e
    | none => stageDeleted fs ps

/-- `stage_changes` (gitDeploy.py lines 273-298): stage modified, added and
untracked paths that still exist, then attempt `git rm --cached` on every
deleted path (the tracked-check guard being vacuous).  Returns (staged
additions, staged removals), or the error of the first failing removal. -/
def stage_changes (fs : RepoFs) (ch : GitChanges) : Except String (List String × List String) :=
  match stageAdds fs (ch.modified ++ ch.added ++ ch.untracked) with
  | Except.error e => Except.error e
  | Except.ok staged =>
    match stageDeleted fs ch.deleted with
    | Except.error e => Except.error e
    | Except.ok removed => Except.ok (staged, removed)

/-- `push_to_remote` (gitDeploy.py lines 328-343) as the list of push
commands it invokes, as a function of the stdout of the upstream rev-parse
probe (empty when the branch has no upstream, since `_run_command` strips
stdout and the probe prints nothing on failure). -/
def push_to_remote (upstreamOut : String) (branch : String) : List (List String) :=
  let upstream := pyStrip upstreamOut
  if upstream != "" then [["git", "push"]]
  else [["git", "push", "-u", "origin", branch]]

/-- Exit status of `run` of gitDeploy.py (lines 345-380) as a function of the
stripped porcelain status output and the success of the deployment-log
analysis, assuming the staging and commit subcommands succeed (their failure
aborts with a non-zero status via `_run_command`): no changes is a normal
return (exit 0), a failed analysis exits 1, and otherwise the workflow
returns normally (even a push failure is caught and reported). -/
def gitDeployRunExit (statusOut : String) (deploymentOk : Bool) : Nat :=
  if pyStrip statusOut == "" then 0
  else if !deploymentOk then 1
  else 0

/-! ### Helper lemmas -/

theorem data_append (a b : String) : (a ++ b).data = a.data ++ b.data := rfl

theorem mk_data (s : String) : String.mk s.data = s := rfl

theorem length_eq_data (s : String) : s.length = s.data.length := rfl

theorem takeWhile_stops (l1 l2 : List Char) (h : '\n' ∉ l1) :
    (l1 ++ '\n' :: l2).takeWhile (fun c => c != '\n') = l1 := by
  induction l1 with
  | nil => simp
  | cons a t ih =>
    simp only [List.mem_cons, not_or] at h
    have ha : (a != '\n') = true := by
      simpa using fun hh => h.1 hh.symm
    simp [List.takeWhile_cons, ha, ih h.2]

/-- The first line of the full commit message is the summary line, as long
as the summary itself contains no newline. -/
theorem firstLine_fullMessage (di : DeploymentInfo) (branch nowIso : String)
    (h : '\n' ∉ (gitDeployCommitSummary di).data) :
    firstLine (gitDeployFullMessage di branch nowIso) = gitDeployCommitSummary di := by
  unfold firstLine gitDeployFullMessage
  have hnl : ("\n\n" : String).data = '\n' :: '\n' :: [] := rfl
  simp only [data_append, List.append_assoc, hnl, List.cons_append, List.nil_append]
  rw [takeWhile_stops _ _ h, mk_data]

/-! ### Claim C2 -/

/-- Claim C2: given a deployment-log file containing the lines
`Title: Fix login bug` and `Deployment Number: 42`, the first line of the
commit message built by the Reconciler is exactly
`Deployment 42: Fix login bug`, whatever the branch name and timestamp. -/
theorem deployment_commit_first_line (branch nowIso : String) :
    firstLine (gitDeployCommitMessage "Title: Fix login bug\nDeployment Number: 42" branch nowIso)
      = "Deployment 42: Fix login bug" := by
  unfold gitDeployCommitMessage
  rw [firstLine_fullMessage]
  · decide
  · decide

/-! ### Claim C4 -/

theorem stageAdds_eq (fs : RepoFs) (l : List String) :
    stageAdds fs l = Except.ok (l.filter fs.onDisk) := by
  induction l with
  | nil => rfl
  | cons p ps ih =>
    cases h : fs.onDisk p <;> simp [stageAdds, gitAdd, h, ih, List.filter_cons, Except.map]

/-- When every deleted path is still tracked, the removal loop succeeds and
stages the removal of each of them. -/
theorem stageDeleted_ok (fs : RepoFs) (l : List String)
    (h : ∀ p ∈ l, fs.tracked p = true) :
    stageDeleted fs l = Except.ok l := by
  induction l with
  | nil => rfl
  | cons p ps ih =>
    have hp : fs.tracked p = true := h p (List.mem_cons_self p ps)
    have hps : ∀ q ∈ ps, fs.tracked q = true := fun q hq => h q (List.mem_cons_of_mem p hq)
    simp [stageDeleted, lsFilesCheck, gitRmCached, hp, ih hps, Except.map]

/-- Claim C4 (code bug): evaluating the staging step at the failing input.
With a change set whose deleted list is the single path gone.txt and a
repository where that path is no longer tracked in the index, the tracked
check guard of gitDeploy.py line 294 passes vacuously, `git rm --cached`
runs anyway and staging aborts with its error (the process would exit
non-zero through `_run_command`), contrary to the claim that already-removed
paths cause no error. -/
theorem stage_changes_stale_delete_fails :
    stage_changes { onDisk := fun _ => true, tracked := fun _ => false }
        { added := [], modified := [], deleted := ["gone.txt"], untracked := [] }
      = Except.error ("pathspec did not match any files: " ++ "gone.txt") := rfl

/-! ### Claim C5 -/

/-- Claim C5: when the upstream probe reports an existing upstream
(non-empty stripped output), exactly one plain `git push` is invoked and no
upstream-establishing push; when the branch has no upstream, exactly one
`git push -u origin branch` is invoked and no plain push. -/
theorem push_variant_counts (upstreamOut branch : String) :
    ((push_to_remote upstreamOut branch).countP (fun c => decide (c = ["git", "push"])),
      (push_to_remote upstreamOut branch).countP
        (fun c => decide (c = ["git", "push", "-u", "origin", branch])))
      = if pyStrip upstreamOut = "" then (0, 1) else (1, 0) := by
  unfold push_to_remote
  by_cases h : pyStrip upstreamOut = "" <;>
    simp [h, List.countP_cons]

/-! ### Claim C6 (corrected) -/

/-- Counterexample to claim C6 as stated: with no changes detected (all
three git queries empty), the analyzer's run does not exit 0 - it exits 1. -/
theorem no_changes_exit_counterexample :
    ¬ (analyzeMainExit [] "/" (get_git_changes "" "" "") false "" = 0) := by
  decide

/-- Claim C6 as amended: on a working tree with no changes, gitDeploy.py
terminates as a "nothing to deploy" success with exit status 0, but
analyze-changes-ai.py exits with status 1 after printing
"No changes detected". -/
theorem no_changes_exit_amended (ip : List String) (cwd : String) (interactive : Bool)
    (response : String) (statusOut : String) (deploymentOk : Bool)
    (h : pyStrip statusOut = "") :
    gitDeployRunExit statusOut deploymentOk = 0
      ∧ analyzeMainExit ip cwd [] interactive response = 1 := by
  constructor
  · simp [gitDeployRunExit, h]
  · rfl

theorem no_changes_exit_amended_witness :
    gitDeployRunExit "" true = 0 ∧ analyzeMainExit [] "/" [] false "" = 1 :=
  no_changes_exit_amended [] "/" false "" "" true rfl

/-! ### Claim C10 -/

/-- Claim C10: a porcelain status line whose two-character code is not `??`,
has `M` in neither position, `A` in neither position, and whose working-tree
(second) character is not `D` - a rename, a copy, or an index-staged
deletion - contributes its path to none of the four change lists: parsing a
status with such a line gives the same change set as parsing without it. -/
theorem status_line_other_codes_ignored (pre suf : List String) (s w : Char) (rest : List Char)
    (h1 : ¬(s = '?' ∧ w = '?')) (h2 : s ≠ 'M') (h3 : w ≠ 'M')
    (h4 : s ≠ 'A') (h5 : w ≠ 'A') (h6 : w ≠ 'D') :
    parseStatusLines (pre ++ String.mk (s :: w :: rest) :: suf)
      = parseStatusLines (pre ++ suf) := by
  have hnone : classifyStatusLine (String.mk (s :: w :: rest)) = none := by
    by_cases hd : s = 'D' <;>
      simp [classifyStatusLine, h1, h2, h3, h4, h5, h6, hd]
  simp [parseStatusLines, List.foldl_append, applyStatusLine, hnone]

theorem status_line_other_codes_ignored_witness :
    parseStatusLines ([] ++ String.mk ('R' :: ' ' :: (" old.txt".data)) :: []) = parseStatusLines ([] ++ []) :=
  status_line_other_codes_ignored [] [] 'R' ' ' (" old.txt".data)
    (by decide) (by decide) (by decide) (by decide) (by decide) (by decide)

/-! ### Claim C1 -/

theorem csf_fst (ip : List String) (cwd : String) (files : List String) :
    (check_sensitive_files ip cwd files).1
      = files.filter fun f => !(should_ignore ip cwd f) && is_sensitive f := by
  induction files with
  | nil => rfl
  | cons f fs ih =>
    cases h1 : should_ignore ip cwd f
    · cases h2 : is_sensitive f <;>
        simp [check_sensitive_files, List.filter_cons, h1, h2, ih]
    · simp [check_sensitive_files, List.filter_cons, h1, ih]

theorem csf_snd (ip : List String) (cwd : String) (files : List String) :
    (check_sensitive_files ip cwd files).2
      = files.filter fun f => should_ignore ip cwd f := by
  induction files with
  | nil => rfl
  | cons f fs ih =>
    cases h1 : should_ignore ip cwd f
    · cases h2 : is_sensitive f <;>
        simp [check_sensitive_files, List.filter_cons, h1, h2, ih]
    · simp [check_sensitive_files, List.filter_cons, h1, ih]

theorem mem_classify_sens (ip : List String) (cwd : String) (files : List String) (q : String) :
    q ∈ (classify ip cwd files).1
      ↔ q ∈ files ∧ should_ignore ip cwd q = false ∧ is_sensitive q = true := by
  simp [classify, csf_fst, List.mem_filter, Bool.not_eq_true', and_assoc]

theorem mem_classify_ign (ip : List String) (cwd : String) (files : List String) (q : String) :
    q ∈ (classify ip cwd files).2.1 ↔ q ∈ files ∧ should_ignore ip cwd q = true := by
  simp [classify, csf_snd, List.mem_filter]

theorem mem_classify_elig (ip : List String) (cwd : String) (files : List String) (q : String) :
    q ∈ (classify ip cwd files).2.2
      ↔ q ∈ files ∧ should_ignore ip cwd q = false ∧ is_sensitive q = false := by
  cases hig : should_ignore ip cwd q <;> cases hsens : is_sensitive q <;>
    simp [classify, List.mem_filter, List.contains, csf_fst, csf_snd, hig, hsens]

/-- Claim C1: classification is ignore-first.  A path of the input that
matches a loaded ignore rule lands in the ignored list and never in the
sensitive or eligible list (even when it is also sensitive); otherwise a
sensitive path lands in the sensitive list only; otherwise the path is
eligible only. -/
theorem classify_ignore_first (ip : List String) (cwd : String) (files : List String) (p : String)
    (hp : p ∈ files) :
    (should_ignore ip cwd p = true →
      p ∈ (classify ip cwd files).2.1 ∧ p ∉ (classify ip cwd files).1
        ∧ p ∉ (classify ip cwd files).2.2) ∧
    (should_ignore ip cwd p = false → is_sensitive p = true →
      p ∈ (classify ip cwd files).1 ∧ p ∉ (classify ip cwd files).2.1
        ∧ p ∉ (classify ip cwd files).2.2) ∧
    (should_ignore ip cwd p = false → is_sensitive p = false →
      p ∈ (classify ip cwd files).2.2 ∧ p ∉ (classify ip cwd files).1
        ∧ p ∉ (classify ip cwd files).2.1) := by
  refine ⟨fun hig => ?_, fun hig hsens => ?_, fun hig hsens => ?_⟩ <;>
    simp [mem_classify_sens, mem_classify_ign, mem_classify_elig, hp, hig] <;>
    simp [hsens]

theorem classify_ignore_first_witness :
    "a_secret.txt" ∈ (classify [] "/" ["a_secret.txt"]).1
      ∧ "a_secret.txt" ∉ (classify [] "/" ["a_secret.txt"]).2.1
      ∧ "a_secret.txt" ∉ (classify [] "/" ["a_secret.txt"]).2.2 :=
  (classify_ignore_first [] "/" ["a_secret.txt"] "a_secret.txt" (by decide)).2.1
    (by decide) (by decide)

/-! ### Claim C3 -/

/-- Claim C3: whenever the classifier finds at least one sensitive file
among the changed files, the analyzer process ends with a non-zero exit
status, whatever the interactivity of the session and whatever the
interactive answer (appending to the ignore file included). -/
theorem analyze_exit_nonzero_on_sensitive (ip : List String) (cwd : String) (files : List String)
    (interactive : Bool) (response : String)
    (h : (check_sensitive_files ip cwd files).1 ≠ []) :
    analyzeMainExit ip cwd files interactive response ≠ 0 := by
  have hs : (check_sensitive_files ip cwd files).1.isEmpty = false := by
    simpa [List.isEmpty_iff] using h
  unfold analyzeMainExit
  split
  · exact Nat.one_ne_zero
  · dsimp only
    rw [hs]
    simp

theorem analyze_exit_nonzero_on_sensitive_witness :
    (check_sensitive_files [] "/" ["a_secret.txt"]).1 ≠ []
      ∧ analyzeMainExit [] "/" ["a_secret.txt"] false "" ≠ 0 :=
  ⟨by decide, analyze_exit_nonzero_on_sensitive [] "/" ["a_secret.txt"] false "" (by decide)⟩

/-! ### Claim C9 -/

/-- Claim C9: the change enumeration is exactly the de-duplicated union of
the three queries: the result has no duplicates (every member appears
exactly once), and a path is a member precisely when it is non-empty and
occurs in the modified, staged or untracked query lines - so empty strings
never appear and nothing else appears. -/
theorem get_git_changes_union (a b c : String) :
    (get_git_changes a b c).Nodup
      ∧ ∀ p : String, p ∈ get_git_changes a b c
          ↔ (p ≠ "" ∧ (p ∈ queryLines a ∨ p ∈ queryLines b ∨ p ∈ queryLines c)) := by
  constructor
  · exact List.Nodup.filter _ (List.nodup_dedup _)
  · intro p
    unfold get_git_changes
    simp only [List.mem_filter, List.mem_dedup, List.mem_append]
    constructor
    · rintro ⟨hmem, hne⟩
      refine ⟨by simpa using hne, ?_⟩
      tauto
    · rintro ⟨hne, hmem⟩
      exact ⟨by tauto, by simpa using hne⟩

/-! ### Claim C7 (corrected) -/

/-- Counterexample to claim C7 as stated: there is no fixed bound on the
length of the summary (first) line of the commit message - the deployment
title is inserted untruncated, so titles longer than any proposed bound
produce longer summary lines. -/
theorem summary_line_unbounded :
    ¬ ∃ B : Nat, ∀ di : DeploymentInfo,
        (firstLine (gitDeployFullMessage di "main" "2025-01-01T00:00:00")).length ≤ B := by
  rintro ⟨B, hB⟩
  have hdata : (String.mk (List.replicate (B + 1) 'a')).data = List.replicate (B + 1) 'a' := rfl
  have htne : String.mk (List.replicate (B + 1) 'a') ≠ "" := by
    intro hcon
    have : (List.replicate (B + 1) 'a').length = 0 := by
      rw [← hdata, hcon]
      rfl
    simp at this
  have hsum : gitDeployCommitSummary
      { deployment_number := "7", title := String.mk (List.replicate (B + 1) 'a') }
      = "Deployment 7: " ++ String.mk (List.replicate (B + 1) 'a') := by
    simp only [gitDeployCommitSummary]
    rw [if_pos htne]
    rfl
  have hnl : '\n' ∉ (gitDeployCommitSummary
      { deployment_number := "7", title := String.mk (List.replicate (B + 1) 'a') }).data := by
    rw [hsum, data_append]
    intro hmem
    rcases List.mem_append.mp hmem with hmem | hmem
    · revert hmem
      decide
    · rw [hdata] at hmem
      exact absurd (List.eq_of_mem_replicate hmem) (by decide)
  have hlen := hB { deployment_number := "7", title := String.mk (List.replicate (B + 1) 'a') }
  rw [firstLine_fullMessage _ _ _ hnl, hsum, length_eq_data, data_append] at hlen
  rw [List.length_append, hdata, List.length_replicate] at hlen
  omega

/-- Claim C7 as amended: the summary line of the commit message built from a
deployment record with a non-empty title is `Deployment <number>: <title>`
with the title untruncated, so its length is 13 plus the lengths of the
number and the title and grows without bound with the title; the
72-character truncation applies only to the fallback comment used when the
title is empty. -/
theorem summary_line_untruncated (di : DeploymentInfo) (h : di.title ≠ "") :
    gitDeployCommitSummary di = "Deployment " ++ di.deployment_number ++ ": " ++ di.title
      ∧ (gitDeployCommitSummary di).length
          = di.deployment_number.length + di.title.length + 13
      ∧ gitDeployCommitSummary { di with title := "" }
          = pyTake 72 ("" : String) := by
  refine ⟨?_, ?_, ?_⟩
  · simp [gitDeployCommitSummary, h]
  · simp only [gitDeployCommitSummary]
    rw [if_pos h]
    simp only [length_eq_data, data_append, List.length_append, List.length_cons,
      List.length_nil]
    have h1 : ("Deployment " : String).data.length = 11 := by decide
    have h2 : (": " : String).data.length = 2 := by decide
    omega
  · simp [gitDeployCommitSummary]

theorem summary_line_untruncated_witness :
    gitDeployCommitSummary { deployment_number := "1", title := "X" }
        = "Deployment " ++ "1" ++ ": " ++ "X"
      ∧ (gitDeployCommitSummary { deployment_number := "1", title := "X" }).length
          = ("1" : String).length + ("X" : String).length + 13
      ∧ gitDeployCommitSummary
            { ({ deployment_number := "1", title := "X" } : DeploymentInfo) with title := "" }
          = pyTake 72 ("" : String) :=
  summary_line_untruncated { deployment_number := "1", title := "X" } (by decide)

/-! ### Claim C8 -/

theorem lowerChar_slash (c : Char) : lowerChar c = '/' ↔ c = '/' := by
  constructor
  · intro h
    unfold lowerChar at h
    cases hf : asciiPairs.find? fun pr => pr.1 == c with
    | none => rw [hf] at h; simpa using h
    | some pr =>
      rw [hf] at h
      simp at h
      exact absurd h ((by decide : ∀ q ∈ asciiPairs, q.2 ≠ '/') pr (List.mem_of_find?_eq_some hf))
  · intro h
    subst h
    decide

theorem takeWhileSlash_map (l : List Char) :
    (l.map lowerChar).takeWhile (fun c => c != '/')
      = (l.takeWhile fun c => c != '/').map lowerChar := by
  induction l with
  | nil => rfl
  | cons a t ih =>
    have hs : (lowerChar a != '/') = (a != '/') := by
      by_cases h : a = '/'
      · subst h; decide
      · have h2 : lowerChar a ≠ '/' := fun hh => h ((lowerChar_slash a).mp hh)
        have hA : (lowerChar a != '/') = true := by simpa using h2
        have hB : (a != '/') = true := by simpa using h
        rw [hA, hB]
    simp only [List.map_cons, List.takeWhile_cons, hs]
    by_cases h : (a != '/') = true
    · simp [h, ih]
    · simp [h]

theorem pyLower_basename (p : String) : pyLower (basename p) = basename (pyLower p) := by
  unfold pyLower basename
  apply congrArg String.mk
  show ((p.data.reverse.takeWhile fun c => c != '/').reverse).map lowerChar
    = ((p.data.map lowerChar).reverse.takeWhile fun c => c != '/').reverse
  rw [← List.map_reverse, takeWhileSlash_map, List.map_reverse]

theorem bool_ite_true_or (c b : Bool) : (if c then true else b) = (c || b) := by
  cases c <;> simp

theorem any_or_split {α : Type} (l : List α) (f g : α → Bool) :
    (l.any fun x => f x || g x) = (l.any f || l.any g) := by
  induction l with
  | nil => rfl
  | cons x xs ih =>
    simp only [List.any_cons, ih]
    cases f x <;> cases g x <;> cases xs.any f <;> cases xs.any g <;> rfl

/-- Claim C8: `is_sensitive` returns true exactly when the lowercased
basename or the lowercased full path matches one of the fixed sensitive glob
patterns, or the lowercased basename contains one of the fixed sensitive
substring keywords (the spec-side restatement `is_sensitive_spec`); and the
check is case-insensitive: two paths with the same lowercasing classify
identically.  It is a pure function of the path string - file content never
enters the definition. -/
theorem is_sensitive_spec_equiv (p : String) :
    is_sensitive p = is_sensitive_spec p
      ∧ ∀ q : String, pyLower p = pyLower q → is_sensitive p = is_sensitive q := by
  constructor
  · unfold is_sensitive is_sensitive_spec
    rw [bool_ite_true_or, any_or_split]
    try simp [Bool.or_assoc]
  · intro q hq
    unfold is_sensitive
    rw [pyLower_basename, hq, ← pyLower_basename]

theorem is_sensitive_spec_equiv_witness :
    is_sensitive "SECRET_API_KEY.TXT" = is_sensitive_spec "SECRET_API_KEY.TXT"
      ∧ is_sensitive "SECRET_API_KEY.TXT" = is_sensitive "secret_api_key.txt" :=
  ⟨(is_sensitive_spec_equiv "SECRET_API_KEY.TXT").1,
    (is_sensitive_spec_equiv "SECRET_API_KEY.TXT").2 "secret_api_key.txt" (by decide)⟩

end DeployTools
